import Mathlib

/-!
Verification of the MindSpace dual-backend storage layer
(`src/services/storage_service.py`, class `StorageService`).

The Python service persists one record per user across two backends:
a remote document store (Firestore) and a local JSON file.  We embed the
relevant operations as pure Lean functions over an explicit world state.
Instants are modelled as integers (seconds since an epoch, in UTC);
one day is 86400 seconds.
-/

namespace MindSpace

/-- A timestamp value as it may appear in a stored entry.  Python code sees
either a `datetime` object or an ISO-8601 string; either may carry a UTC
offset (aware) or not (naive).  `localTime` is the clock reading encoded
in the value; for an aware value the denoted instant is
`localTime - offset`.  `strBad` is an unparseable string and `other` any
non-string, non-datetime value. -/
inductive TsValue where
  | dt (localTime : Int) (offset : Option Int)
  | str (localTime : Int) (offset : Option Int)
  | strBad
  | other
  deriving Repr, DecidableEq

/-- One element of a history list: the dictionary fields the storage layer
actually inspects (`id`, `timestamp`, `mood`), plus payload fields
(`title`, `status`) that it carries around untouched.  A `none` field
models an absent dictionary key. -/
structure Entry where
  id : Option String := none
  timestamp : Option TsValue := none
  mood : Option String := none
  title : String := ""
  status : String := ""
  deriving Repr, DecidableEq

/-- The `settings` sub-object (`{'theme': 'light'}` by default). -/
structure Settings where
  theme : String
  deriving Repr, DecidableEq

/-- The `profile` sub-object written by `update_user_profile`. -/
structure Profile where
  bio : String := ""
  interests : List String := []
  deriving Repr, DecidableEq

/-- A user document / local JSON file content.  Each field is optional
because a Python dict may lack the corresponding key. -/
structure Record where
  mood_history : Option (List Entry) := none
  focus_history : Option (List Entry) := none
  task_history : Option (List Entry) := none
  chat_history : Option (List Entry) := none
  schedules : Option (List Entry) := none
  profile : Option Profile := none
  settings : Option Settings := none
  deriving Repr, DecidableEq

/-- The default record returned by `_load_local_data` when the user's file
is absent (storage_service.py lines 35-41).  Note that it contains no
`schedules` key and no `profile` key. -/
def ls_default : Record :=
  { mood_history := some []
    focus_history := some []
    task_history := some []
    chat_history := some []
    schedules := none
    profile := none
    settings := some { theme := "light" } }

/-- `_load_local_data`: read the user's local file, or the default record
when the file is absent.  Total: an absent file is never an error. -/
def load_local_data : Option Record → Record
  | some r => r
  | none => ls_default

/-- `parse_timestamp` (inner function of `_filter_history`): normalize a
timestamp to a UTC instant.  A naive `datetime` gets
`replace(tzinfo=timezone.utc)` (interpreted as already UTC); an aware one
is converted with `astimezone(timezone.utc)`.  Strings go through
`datetime.fromisoformat` with the same two cases; an unparseable string or
a value of any other type yields `None`. -/
def parse_timestamp : Option TsValue → Option Int
  | some (TsValue.dt t none) => some t
  | some (TsValue.dt t (some o)) => some (t - o)
  | some (TsValue.str t none) => some t
  | some (TsValue.str t (some o)) => some (t - o)
  | some TsValue.strBad => none
  | some TsValue.other => none
  | none => none

/-- Python truthiness of the `days` argument: `if days:` is taken only for
a present, nonzero integer. -/
def pyTruthyInt : Option Int → Bool
  | none => false
  | some d => d != 0

/-- Python truthiness of the `mood_filter` argument: `if mood_filter:` is
taken only for a present, nonempty string. -/
def pyTruthyStr : Option String → Bool
  | none => false
  | some s => s != ""

/-- The per-entry predicate of the days filter: keep an entry iff its
timestamp parses and the parsed instant is `>= cutoff`. -/
def code_keep (cutoff : Int) (e : Entry) : Bool :=
  match parse_timestamp e.timestamp with
  | some t => decide (cutoff ≤ t)
  | none => false

/-- The days-filter stage of `_filter_history`: when `days` is truthy,
retain entries at or after `now - days` days. -/
def applyDaysFilter (now : Int) (days : Option Int) (history : List Entry) :
    List Entry :=
  if pyTruthyInt days then
    history.filter (code_keep (now - (days.getD 0) * 86400))
  else history

/-- Does the character list `n` occur at the start of `h`? -/
def charsStartWith : List Char → List Char → Bool
  | [], _ => true
  | _ :: _, [] => false
  | a :: as, b :: bs => a == b && charsStartWith as bs

/-- Does the character list `n` occur contiguously inside `h`?  Used to
model Python's substring test `needle in haystack`. -/
def charsContain : List Char → List Char → Bool
  | n, [] => charsStartWith n []
  | n, b :: bs => charsStartWith n (b :: bs) || charsContain n bs

/-- Python `needle in haystack` on strings. -/
def pyInStr (needle haystack : String) : Bool :=
  charsContain needle.data haystack.data

/-- The mood-filter stage of `_filter_history`: the comprehension reads
`entry['mood']`, so an entry lacking the key raises `KeyError`; otherwise
entries whose mood is a substring of `mood_filter` are retained. -/
def applyMoodFilter (moodFilter : String) (history : List Entry) :
    Except Unit (List Entry) :=
  if history.all (fun e => e.mood.isSome) then
    Except.ok (history.filter (fun e => pyInStr (e.mood.getD "") moodFilter))
  else Except.error ()

/-- Filter one history list: the days filter, then (for `mood_history`
only, with a truthy `mood_filter`) the mood filter. -/
def filterOne (now : Int) (days : Option Int) (moodFilter : Option String)
    (isMood : Bool) (history : List Entry) : Except Unit (List Entry) :=
  let h1 := applyDaysFilter now days history
  if pyTruthyStr moodFilter && isMood then
    applyMoodFilter (moodFilter.getD "") h1
  else Except.ok h1

/-- `if history_type in filtered_data:` — an absent list is left absent. -/
def filterOpt (now : Int) (days : Option Int) (moodFilter : Option String)
    (isMood : Bool) : Option (List Entry) → Except Unit (Option (List Entry))
  | none => Except.ok none
  | some h => (filterOne now days moodFilter isMood h).map some

/-- `_filter_history`: copy the record and replace each of the three
filterable lists (`mood_history`, `focus_history`, `task_history`) by its
filtered version, in that order; a `KeyError` raised while filtering
aborts the whole call. -/
def filter_history (now : Int) (data : Record) (days : Option Int)
    (moodFilter : Option String) : Except Unit Record :=
  match filterOpt now days moodFilter true data.mood_history with
  | Except.error e => Except.error e
  | Except.ok m =>
    match filterOpt now days moodFilter false data.focus_history with
    | Except.error e => Except.error e
    | Except.ok f =>
      match filterOpt now days moodFilter false data.task_history with
      | Except.error e => Except.error e
      | Except.ok t =>
        Except.ok { data with
          mood_history := m, focus_history := f, task_history := t }

/-- Modelled from the spec (§4.4): normalize an ISO-8601 timestamp, naive
values being assumed to already be UTC, offset-bearing values being
converted to UTC; anything unparseable has no normal form. -/
def spec_normalize : TsValue → Option Int
  | TsValue.dt t none => some t
  | TsValue.dt t (some o) => some (t - o)
  | TsValue.str t none => some t
  | TsValue.str t (some o) => some (t - o)
  | TsValue.strBad => none
  | TsValue.other => none

/-- Modelled from the spec (§4.4): retain an entry iff its normalized
timestamp is `≥ now - windowDays` days; entries whose timestamp is
missing or unparseable never match. -/
def spec_keep (now windowDays : Int) (e : Entry) : Bool :=
  match e.timestamp with
  | some ts =>
    match spec_normalize ts with
    | some t => decide (now - windowDays * 86400 ≤ t)
    | none => false
  | none => false

/-- The world acted on by a storage operation.  `remoteAvail` is what the
availability probe (`is_firestore_available`) reports; `remoteFails`
means any Firestore mutation attempted during the operation raises;
`localWritable` means `_save_local_data` succeeds (a local write failure
raises and is caught by the operation's catch-all). -/
structure World where
  remoteAvail : Bool
  remoteFails : Bool
  localWritable : Bool
  remoteDoc : Option Record
  localFile : Option Record
  deriving Repr, DecidableEq

/-- Firestore `ArrayUnion([e])` on a list field: append `e` unless an
equal element is already present. -/
def arrayUnion (l : List Entry) (e : Entry) : List Entry :=
  if e ∈ l then l else l ++ [e]

/-- `save_mood_entry`.  Probe available: `update` with `ArrayUnion` on the
remote document, stamping the entry with a naive `datetime.now()`; the
update raises when the document does not exist, and any exception makes
the operation return `False` (caught by the catch-all, no fallback).
Probe unavailable: local read-append-write, stamping the entry with
`datetime.now().isoformat()`; a missing `mood_history` key raises
`KeyError`, also caught. -/
def save_mood_entry (now : Int) (w : World) (e : Entry) : Bool × World :=
  if w.remoteAvail then
    if w.remoteFails then (false, w)
    else
      match w.remoteDoc with
      | none => (false, w)
      | some d =>
        let e2 := { e with timestamp := some (TsValue.dt now none) }
        let d2 := { d with mood_history := some (arrayUnion (d.mood_history.getD []) e2) }
        (true, { w with remoteDoc := some d2 })
  else
    let data := load_local_data w.localFile
    match data.mood_history with
    | none => (false, w)
    | some h =>
      if w.localWritable then
        let data2 := { data with mood_history := some (h ++ [{ e with timestamp := some (TsValue.str now none) }]) }
        (true, { w with localFile := some data2 })
      else (false, w)

/-- `save_task_entry`: same routing as `save_mood_entry` but the entry is
stored as passed (no timestamp is added). -/
def save_task_entry (w : World) (e : Entry) : Bool × World :=
  if w.remoteAvail then
    if w.remoteFails then (false, w)
    else
      match w.remoteDoc with
      | none => (false, w)
      | some d =>
        let d2 := { d with task_history := some (arrayUnion (d.task_history.getD []) e) }
        (true, { w with remoteDoc := some d2 })
  else
    let data := load_local_data w.localFile
    match data.task_history with
    | none => (false, w)
    | some h =>
      if w.localWritable then
        let data2 := { data with task_history := some (h ++ [e]) }
        (true, { w with localFile := some data2 })
      else (false, w)

/-- `save_focus_entry`: same routing, on `focus_history`. -/
def save_focus_entry (w : World) (e : Entry) : Bool × World :=
  if w.remoteAvail then
    if w.remoteFails then (false, w)
    else
      match w.remoteDoc with
      | none => (false, w)
      | some d =>
        let d2 := { d with focus_history := some (arrayUnion (d.focus_history.getD []) e) }
        (true, { w with remoteDoc := some d2 })
  else
    let data := load_local_data w.localFile
    match data.focus_history with
    | none => (false, w)
    | some h =>
      if w.localWritable then
        let data2 := { data with focus_history := some (h ++ [e]) }
        (true, { w with localFile := some data2 })
      else (false, w)

/-- `save_schedule`: same routing, on `schedules`; the local branch
inserts an empty list first when the key is absent, so it cannot raise a
`KeyError`. -/
def save_schedule (w : World) (e : Entry) : Bool × World :=
  if w.remoteAvail then
    if w.remoteFails then (false, w)
    else
      match w.remoteDoc with
      | none => (false, w)
      | some d =>
        let d2 := { d with schedules := some (arrayUnion (d.schedules.getD []) e) }
        (true, { w with remoteDoc := some d2 })
  else
    let data := load_local_data w.localFile
    let h := data.schedules.getD []
    if w.localWritable then
      let data2 := { data with schedules := some (h ++ [e]) }
      (true, { w with localFile := some data2 })
    else (false, w)

/-- `entry.get('id')` followed by the truthiness test `if entry.get('id')`:
an absent or empty-string id does not participate in dedup. -/
def pyId (e : Entry) : Option String :=
  match e.id with
  | some s => if s = "" then none else some s
  | none => none

/-- `firestore_ids`: the set of truthy ids of a remote history list. -/
def fsIds (l : List Entry) : List String := l.filterMap pyId

/-- `new_entries`: local entries with a truthy id that is not among the
remote ids. -/
def newEntries (loc fs : List Entry) : List Entry :=
  loc.filter (fun e =>
    match pyId e with
    | some s => !(decide (s ∈ fsIds fs))
    | none => false)

/-- One history list after `sync_user_data`: the remote list with the new
local-only entries appended, or the remote field unchanged (possibly an
absent key) when no new entries exist. -/
def mergedField (locF fsF : Option (List Entry)) : Option (List Entry) :=
  let new := newEntries (locF.getD []) (fsF.getD [])
  if new = [] then fsF else some (fsF.getD [] ++ new)

/-- `merged_data`: the remote record with the four tracked history lists
merged (`schedules` is not synchronized). -/
def mergedRecord (ld fs : Record) : Record :=
  { fs with
    mood_history := mergedField ld.mood_history fs.mood_history
    focus_history := mergedField ld.focus_history fs.focus_history
    task_history := mergedField ld.task_history fs.task_history
    chat_history := mergedField ld.chat_history fs.chat_history }

/-- `sync_user_data`.  Remote unavailable, remote operations raising, or
remote document absent: nothing happens and `False` is returned.
Otherwise each merged list is pushed to the remote document and the full
merged record overwrites the local file; when the local write raises, the
remote updates remain applied and `False` is returned. -/
def sync_user_data (w : World) : Bool × World :=
  if w.remoteAvail then
    if w.remoteFails then (false, w)
    else
      match w.remoteDoc with
      | none => (false, w)
      | some fs =>
        let merged := mergedRecord (load_local_data w.localFile) fs
        if w.localWritable then
          (true, { w with remoteDoc := some merged, localFile := some merged })
        else (false, { w with remoteDoc := some merged })
  else (false, w)

/-- `update_task_status`, list transform applied in both branches: replace
every task whose `id` field equals the incoming task's `id` by the
incoming task, positions preserved. -/
def update_task_status_list (tasks : List Entry) (task : Entry) : List Entry :=
  tasks.map (fun t => if t.id ≠ task.id then t else task)

/-- `delete_task`, list transform applied in both branches: keep exactly
the tasks whose `id` field differs from the incoming task's `id`. -/
def delete_task_list (tasks : List Entry) (task : Entry) : List Entry :=
  tasks.filter (fun t => decide (t.id ≠ task.id))

/-- An OTP challenge document: `{otp, expires_at, attempts}` (the
`attempts` counter is written once and never read back). -/
structure OtpChallenge where
  otp : String
  expiresAt : Int
  deriving Repr, DecidableEq

/-- Content of the local file `data/user_otp_<email>.json`: absent,
`null` (written after a successful local verification), or a stored
challenge. -/
inductive LocalOtp where
  | absent
  | null
  | chal (c : OtpChallenge)
  deriving Repr, DecidableEq

/-- World acted on by `verify_otp` for one email address. -/
structure OtpWorld where
  remoteAvail : Bool
  remoteFails : Bool
  remoteOtp : Option OtpChallenge
  localOtp : LocalOtp
  deriving Repr, DecidableEq

/-- The local-storage fallback of `verify_otp`.  An absent file makes
`_load_local_data` return the default record, whose missing
`expires_at` key raises a `KeyError` caught as `False`; a `null` file is
falsy and yields `False`; otherwise expiry is checked first
(`now > expires_at` rejects without deleting), then exact match (success
overwrites the file with `null`). -/
def verify_local (now : Int) (w : OtpWorld) (code : String) : Bool × OtpWorld :=
  match w.localOtp with
  | LocalOtp.absent => (false, w)
  | LocalOtp.null => (false, w)
  | LocalOtp.chal c =>
    if c.expiresAt < now then (false, w)
    else if c.otp = code then (true, { w with localOtp := LocalOtp.null })
    else (false, w)

/-- `verify_otp`.  With the probe reporting available and remote reads
succeeding, an existing remote challenge is checked there (expiry first —
rejected without deletion — then exact match, which deletes the
document); a missing remote document, an unavailable probe, or a raising
remote read all fall through to the local-storage check. -/
def verify_otp (now : Int) (w : OtpWorld) (code : String) : Bool × OtpWorld :=
  if w.remoteAvail then
    if w.remoteFails then verify_local now w code
    else
      match w.remoteOtp with
      | some c =>
        if c.expiresAt < now then (false, w)
        else if c.otp = code then (true, { w with remoteOtp := none })
        else (false, w)
      | none => verify_local now w code
  else verify_local now w code

/-! Helper lemmas about the merge step. -/

theorem mem_fsIds_of_pyId {e : Entry} {s : String} {l : List Entry}
    (he : e ∈ l) (hs : pyId e = some s) : s ∈ fsIds l :=
  List.mem_filterMap.mpr ⟨e, he, hs⟩

theorem newEntries_eq_nil {loc fs : List Entry}
    (h : ∀ e ∈ loc, ∀ s, pyId e = some s → s ∈ fsIds fs) :
    newEntries loc fs = [] := by
  unfold newEntries
  rw [List.filter_eq_nil_iff]
  intro e he
  cases hp : pyId e with
  | none => simp [hp]
  | some s => simp [hp, h e he s hp]

theorem newEntries_self (l : List Entry) : newEntries l l = [] :=
  newEntries_eq_nil (fun _ he _ hs => mem_fsIds_of_pyId he hs)

theorem mem_newEntries {loc fs : List Entry} {e : Entry} {s : String}
    (he : e ∈ loc) (hs : pyId e = some s) (hnot : s ∉ fsIds fs) :
    e ∈ newEntries loc fs := by
  unfold newEntries
  rw [List.mem_filter]
  exact ⟨he, by simp [hs, hnot]⟩

theorem newEntries_absorb (loc fs : List Entry) :
    newEntries loc (fs ++ newEntries loc fs) = [] := by
  apply newEntries_eq_nil
  intro e he s hs
  show s ∈ fsIds (fs ++ newEntries loc fs)
  unfold fsIds
  rw [List.filterMap_append]
  by_cases hmem : s ∈ fsIds fs
  · exact List.mem_append_left _ hmem
  · exact List.mem_append_right _ (mem_fsIds_of_pyId (mem_newEntries he hs hmem) hs)

theorem mergedField_self (x : Option (List Entry)) : mergedField x x = x := by
  unfold mergedField
  simp [newEntries_self]

theorem mergedField_absorb (l f : Option (List Entry)) :
    mergedField l (mergedField l f) = mergedField l f := by
  by_cases h : newEntries (l.getD []) (f.getD []) = []
  · have hf : mergedField l f = f := by simp [mergedField, h]
    rw [hf]
    exact hf
  · have hf : mergedField l f
        = some (f.getD [] ++ newEntries (l.getD []) (f.getD [])) := by
      simp [mergedField, h]
    rw [hf]
    simp [mergedField, newEntries_absorb]

theorem mergedRecord_self (m : Record) : mergedRecord m m = m := by
  unfold mergedRecord
  simp [mergedField_self]

theorem mergedRecord_absorb (ld fs : Record) :
    mergedRecord ld (mergedRecord ld fs) = mergedRecord ld fs := by
  unfold mergedRecord
  simp [mergedField_absorb]

/-- When new local-only entries exist, the merged field is the remote list
with the new entries appended. -/
theorem mergedField_of_ne_nil {l f : Option (List Entry)}
    (h : newEntries (l.getD []) (f.getD []) ≠ []) :
    mergedField l f = some (f.getD [] ++ newEntries (l.getD []) (f.getD [])) := by
  simp [mergedField, h]

/-! Helper lemmas about task identity. -/

theorem countP_le_one_of_nodup_map (l : List Entry) (x : Option String)
    (h : (l.map Entry.id).Nodup) :
    l.countP (fun t => decide (t.id = x)) ≤ 1 := by
  induction l with
  | nil => simp
  | cons a l ih =>
    simp only [List.map_cons, List.nodup_cons] at h
    rw [List.countP_cons]
    by_cases hax : a.id = x
    · have hz : l.countP (fun t => decide (t.id = x)) = 0 := by
        rw [List.countP_eq_zero]
        intro t ht
        simp only [decide_eq_true_eq]
        intro htx
        exact h.1 (by rw [hax, ← htx]; exact List.mem_map_of_mem Entry.id ht)
      simp [hz, hax]
    · simp [hax, ih h.2]

/-! Claim theorems. -/

/-- C9 counterexample: when the local file is absent, the record returned
by `_load_local_data` carries no `schedules` list at all — the claim's
"empty history lists for every history category" fails for the schedules
category, which is absent rather than present-and-empty. -/
theorem c9_counterexample :
    (load_local_data none).schedules = none
  ∧ (load_local_data none).schedules ≠ some [] :=
  ⟨rfl, by decide⟩

/-- C9 (amended): for a userId whose local file is absent, the local load
returns — never raising — a record with empty `mood_history`,
`focus_history`, `task_history` and `chat_history` lists and default
settings `{theme: light}`; the `schedules` list (and `profile`) are
absent from the record, absence being what downstream code treats as
empty. -/
theorem c9_amended_empty_record :
    load_local_data none =
      { mood_history := some [], focus_history := some [],
        task_history := some [], chat_history := some [],
        schedules := none, profile := none,
        settings := some { theme := "light" } } := rfl

def c3task : Entry := { id := some "1", status := "pending" }

def c3w : World :=
  { remoteAvail := true, remoteFails := false, localWritable := true,
    remoteDoc := none,
    localFile := some { ls_default with task_history := some [c3task] } }

/-- C3 counterexample: with the probe reporting available, no remote
document, and a local task `{id:"1", status:"pending"}` (Scenario A),
`sync_user_data` performs no merge at all: it returns `false` and the
remote document is still not created. -/
theorem c3_counterexample :
    sync_user_data c3w = (false, c3w)
  ∧ (sync_user_data c3w).2.remoteDoc = none
  ∧ (load_local_data c3w.localFile).task_history = some [c3task] :=
  ⟨rfl, rfl, rfl⟩

/-- C3 (amended): when the remote document for a user does not exist,
`sync_user_data` does not treat the remote lists as empty and does not
perform a first push — it skips the merge entirely, returning `false`
and leaving both backends unchanged. -/
theorem c3_amended_no_first_push (w : World) (hD : w.remoteDoc = none) :
    sync_user_data w = (false, w) := by
  obtain ⟨ra, rf, lw, rd, lf⟩ := w
  simp only at hD
  subst hD
  cases ra <;> cases rf <;> simp [sync_user_data]

def c3w2 : World :=
  { remoteAvail := true, remoteFails := false, localWritable := true,
    remoteDoc := none, localFile := none }

theorem c3_amended_witness : sync_user_data c3w2 = (false, c3w2) :=
  c3_amended_no_first_push c3w2 rfl

def c6chal : OtpChallenge := { otp := "123456", expiresAt := 600 }

def c6w : OtpWorld :=
  { remoteAvail := true, remoteFails := false, remoteOtp := some c6chal,
    localOtp := LocalOtp.absent }

/-- C6 counterexample: a remote challenge that expired at instant 600,
verified at instant 601 with the matching code, is rejected but NOT
deleted — the world is unchanged and the challenge document is still
stored, contradicting "additionally deletes the stored challenge". -/
theorem c6_counterexample :
    verify_otp 601 c6w "123456" = (false, c6w)
  ∧ (verify_otp 601 c6w "123456").2.remoteOtp = some c6chal := by
  constructor <;> rfl

/-- C6 (amended): when `verify_otp` is called on an expired challenge it
returns false and leaves the stored challenge in place — no deletion
happens on expiry-triggered rejection, in either the remote or the local
storage path; deletion happens only on a successful match. -/
theorem c6_amended_no_delete_on_expiry (now : Int) (w : OtpWorld)
    (c : OtpChallenge) (code : String) (hexp : c.expiresAt < now)
    (hstore :
      (w.remoteAvail = true ∧ w.remoteFails = false ∧ w.remoteOtp = some c)
      ∨ ((w.remoteAvail = false ∨ w.remoteFails = true ∨ w.remoteOtp = none)
          ∧ w.localOtp = LocalOtp.chal c)) :
    verify_otp now w code = (false, w) := by
  obtain ⟨ra, rf, ro, lo⟩ := w
  simp only at hstore
  rcases hstore with ⟨hA, hF, hR⟩ | ⟨hor, hL⟩
  · subst hA; subst hF; subst hR
    simp [verify_otp, hexp]
  · subst hL
    rcases hor with hA | hF | hR
    · subst hA; simp [verify_otp, verify_local, hexp]
    · subst hF; cases ra <;> simp [verify_otp, verify_local, hexp]
    · subst hR; cases ra <;> cases rf <;> simp [verify_otp, verify_local, hexp]

theorem c6_amended_witness : verify_otp 700 c6w "000000" = (false, c6w) :=
  c6_amended_no_delete_on_expiry 700 c6w c6chal "000000" (by decide)
    (Or.inl ⟨rfl, rfl, rfl⟩)

/-- C5: `verify_otp` is single-use.  For an issued, unexpired challenge —
stored remotely with the probe reporting available and remote reads
succeeding, or stored locally with no remote document — the first call
with the matching code returns true and deletes the stored challenge
(remote document deleted, resp. local file overwritten with `null`), and
a second call with the same code, at any later instant, returns false. -/
theorem c5_otp_single_use (now now2 : Int) (w : OtpWorld) (c : OtpChallenge)
    (hexp : now ≤ c.expiresAt)
    (hstore :
      (w.remoteAvail = true ∧ w.remoteFails = false ∧ w.remoteOtp = some c
        ∧ ∀ c2, w.localOtp ≠ LocalOtp.chal c2)
      ∨ (w.remoteOtp = none ∧ w.localOtp = LocalOtp.chal c)) :
    (verify_otp now w c.otp).1 = true
  ∧ (verify_otp now w c.otp).2.remoteOtp = none
  ∧ (∀ c2, (verify_otp now w c.otp).2.localOtp ≠ LocalOtp.chal c2)
  ∧ (verify_otp now2 (verify_otp now w c.otp).2 c.otp).1 = false := by
  obtain ⟨ra, rf, ro, lo⟩ := w
  simp only at hstore
  have hlt : ¬ c.expiresAt < now := by omega
  rcases hstore with ⟨hA, hF, hR, hL⟩ | ⟨hR, hL⟩
  · subst hA; subst hF; subst hR
    refine ⟨by simp [verify_otp, hlt], by simp [verify_otp, hlt], ?_, ?_⟩
    · intro c2
      simpa [verify_otp, hlt] using hL c2
    · cases hlo : lo with
      | chal c2 => exact absurd hlo (hL c2)
      | absent => simp [verify_otp, verify_local, hlt, hlo]
      | null => simp [verify_otp, verify_local, hlt, hlo]
  · subst hR; subst hL
    cases ra <;> cases rf <;>
      simp [verify_otp, verify_local, hlt]

def c5w : OtpWorld :=
  { remoteAvail := true, remoteFails := false,
    remoteOtp := some { otp := "111222", expiresAt := 600 },
    localOtp := LocalOtp.absent }

theorem c5_witness :
    (verify_otp 0 c5w "111222").1 = true
  ∧ (verify_otp 9000 (verify_otp 0 c5w "111222").2 "111222").1 = false := by
  have h := c5_otp_single_use 0 9000 c5w { otp := "111222", expiresAt := 600 }
    (by decide) (Or.inl ⟨rfl, rfl, rfl, fun c2 h => by cases h⟩)
  exact ⟨h.1, h.2.2.2⟩

/-- C7: `update_task_status` and `delete_task` locate the target by `id`,
never by position.  For a task list with pairwise-distinct `id` fields
and an incoming task carrying an id: the update preserves length,
rewrites exactly the positions holding the incoming id (of which there
is at most one) and leaves every other position untouched; the deletion
is a sublist containing exactly the entries with a different id, and
removes exactly the matching entries.  Entry payloads (title, status,
timestamp) are never consulted, so two tasks sharing a title or
timestamp are still told apart. -/
theorem c7_task_identity (tasks : List Entry) (task : Entry) (s : String)
    (_hid : task.id = some s) (hnd : (tasks.map Entry.id).Nodup) :
    (update_task_status_list tasks task).length = tasks.length
  ∧ (∀ i : Nat, ∀ t : Entry, tasks[i]? = some t → t.id ≠ task.id →
      (update_task_status_list tasks task)[i]? = some t)
  ∧ (∀ i : Nat, ∀ t : Entry, tasks[i]? = some t → t.id = task.id →
      (update_task_status_list tasks task)[i]? = some task)
  ∧ tasks.countP (fun t => decide (t.id = task.id)) ≤ 1
  ∧ List.Sublist (delete_task_list tasks task) tasks
  ∧ (∀ t : Entry, t ∈ delete_task_list tasks task ↔ (t ∈ tasks ∧ t.id ≠ task.id))
  ∧ (delete_task_list tasks task).length
      = tasks.length - tasks.countP (fun t => decide (t.id = task.id)) := by
  refine ⟨List.length_map _ _, ?_, ?_, countP_le_one_of_nodup_map tasks task.id hnd,
    List.filter_sublist tasks, ?_, ?_⟩
  · intro i t ht hne
    unfold update_task_status_list
    rw [List.getElem?_map, ht]
    simp [hne]
  · intro i t ht heq
    unfold update_task_status_list
    rw [List.getElem?_map, ht]
    simp [heq]
  · intro t
    unfold delete_task_list
    rw [List.mem_filter]
    simp
  · unfold delete_task_list
    rw [← List.countP_eq_length_filter]
    have hsplit := List.length_eq_countP_add_countP
      (p := fun t => decide (t.id = task.id)) tasks
    have hcongr : tasks.countP (fun t => decide (t.id ≠ task.id))
        = tasks.countP (fun t => ¬ decide (t.id = task.id)) := by
      apply List.countP_congr
      intro t _
      simp
    rw [hcongr]
    omega

def c7a : Entry := { id := some "1", title := "A", status := "pending" }

def c7b : Entry := { id := some "2", title := "A", status := "pending" }

def c7new : Entry := { id := some "1", title := "A", status := "completed" }

theorem c7_witness :
    (update_task_status_list [c7a, c7b] c7new).length = 2
  ∧ [c7a, c7b].countP (fun t => decide (t.id = c7new.id)) ≤ 1
  ∧ (delete_task_list [c7a, c7b] c7new).length
      = 2 - [c7a, c7b].countP (fun t => decide (t.id = c7new.id)) := by
  have h := c7_task_identity [c7a, c7b] c7new "1" rfl (by decide)
  exact ⟨h.1, h.2.2.2.1, h.2.2.2.2.2.2⟩

/-- C10: `_filter_history` is frame-preserving outside the three
filterable lists — whenever it returns a record, that record's
`chat_history`, `schedules`, `profile` and `settings` are exactly those
of the input, for every combination of `days` and `mood_filter`
arguments. -/
theorem c10_filter_frame (now : Int) (data : Record) (days : Option Int)
    (moodFilter : Option String) (r : Record)
    (h : filter_history now data days moodFilter = Except.ok r) :
    r.chat_history = data.chat_history ∧ r.schedules = data.schedules
  ∧ r.profile = data.profile ∧ r.settings = data.settings := by
  unfold filter_history at h
  split at h
  · exact absurd h (by simp)
  · split at h
    · exact absurd h (by simp)
    · split at h
      · exact absurd h (by simp)
      · rw [Except.ok.injEq] at h
        subst h
        exact ⟨rfl, rfl, rfl, rfl⟩

def c10entry : Entry :=
  { mood := some "happy", timestamp := some (TsValue.str 0 none) }

def c10in : Record :=
  { mood_history := some [c10entry],
    focus_history := some [], task_history := some [],
    chat_history := some [{ title := "chat" }],
    schedules := some [{ title := "sched" }],
    profile := some { bio := "b", interests := ["x"] },
    settings := some { theme := "dark" } }

def c10out : Record := { c10in with mood_history := some [] }

theorem c10_witness :
    c10out.chat_history = c10in.chat_history
  ∧ c10out.schedules = c10in.schedules
  ∧ c10out.profile = c10in.profile
  ∧ c10out.settings = c10in.settings :=
  c10_filter_frame (10 * 86400) c10in (some 7) none c10out (by rfl)

def e0 : Entry := { mood := some "calm", title := "t" }

def c1wx : World :=
  { remoteAvail := true, remoteFails := true, localWritable := true,
    remoteDoc := some ls_default, localFile := none }

/-- C1 counterexample: with the probe reporting the remote available, the
remote append raising, and the local store perfectly writable,
`save_mood_entry` returns false and writes nothing locally — the
operation does NOT fall back to a local read-append-write, so the entry
is not visible via a local load. -/
theorem c1_counterexample :
    (save_mood_entry 0 c1wx e0).1 = false
  ∧ (save_mood_entry 0 c1wx e0).2 = c1wx
  ∧ (load_local_data (save_mood_entry 0 c1wx e0).2.localFile).mood_history
      = some [] :=
  ⟨rfl, rfl, rfl⟩

/-- C1 (amended): for every write operation (`save_mood_entry`,
`save_task_entry`, `save_focus_entry`, `save_schedule`), if the probe
reports the remote available and the remote append attempt raises, the
operation catches the exception and returns false WITHOUT falling back
to local storage; the local read-append-write fallback runs only when
the probe reports the remote unavailable, in which case — local store
writable, required history key present — the write returns true and the
entry is subsequently visible via a local load. -/
theorem c1_amended_fallback (now : Int) (w : World) (e : Entry) :
    (w.remoteAvail = true → w.remoteFails = true →
        save_mood_entry now w e = (false, w)
      ∧ save_task_entry w e = (false, w)
      ∧ save_focus_entry w e = (false, w)
      ∧ save_schedule w e = (false, w))
  ∧ (w.remoteAvail = false → w.localWritable = true →
        (∀ h, (load_local_data w.localFile).mood_history = some h →
            (save_mood_entry now w e).1 = true
          ∧ (load_local_data (save_mood_entry now w e).2.localFile).mood_history
              = some (h ++ [{ e with timestamp := some (TsValue.str now none) }]))
      ∧ (∀ h, (load_local_data w.localFile).task_history = some h →
            (save_task_entry w e).1 = true
          ∧ (load_local_data (save_task_entry w e).2.localFile).task_history
              = some (h ++ [e]))
      ∧ (∀ h, (load_local_data w.localFile).focus_history = some h →
            (save_focus_entry w e).1 = true
          ∧ (load_local_data (save_focus_entry w e).2.localFile).focus_history
              = some (h ++ [e]))
      ∧ ((save_schedule w e).1 = true
        ∧ (load_local_data (save_schedule w e).2.localFile).schedules
            = some ((load_local_data w.localFile).schedules.getD [] ++ [e]))) := by
  constructor
  · intro hA hF
    refine ⟨?_, ?_, ?_, ?_⟩ <;>
      simp [save_mood_entry, save_task_entry, save_focus_entry, save_schedule,
        hA, hF]
  · intro hA hW
    refine ⟨?_, ?_, ?_, ?_⟩
    · intro h hh
      simp only [save_mood_entry, hA, hW, hh]
      simp [load_local_data]
    · intro h hh
      simp only [save_task_entry, hA, hW, hh]
      simp [load_local_data]
    · intro h hh
      simp only [save_focus_entry, hA, hW, hh]
      simp [load_local_data]
    · simp only [save_schedule, hA, hW]
      simp [load_local_data]

def c1wGood : World :=
  { remoteAvail := false, remoteFails := false, localWritable := true,
    remoteDoc := none, localFile := none }

theorem c1_amended_witness :
    (save_mood_entry 0 c1wx e0).1 = false
  ∧ (save_mood_entry 0 c1wGood e0).1 = true
  ∧ (load_local_data (save_mood_entry 0 c1wGood e0).2.localFile).mood_history
      = some [{ e0 with timestamp := some (TsValue.str 0 none) }]
  ∧ (save_schedule c1wGood e0).1 = true := by
  have hbad := ((c1_amended_fallback 0 c1wx e0).1 rfl rfl).1
  have hgood := ((c1_amended_fallback 0 c1wGood e0).2 rfl rfl).1 [] rfl
  have hsched := ((c1_amended_fallback 0 c1wGood e0).2 rfl rfl).2.2.2.1
  refine ⟨by rw [hbad], hgood.1, ?_, hsched⟩
  rw [hgood.2]
  rfl

/-- Pointwise agreement of the code's days-filter predicate with the
spec's windowed-retention predicate. -/
theorem code_keep_eq_spec_keep (now d : Int) (e : Entry) :
    code_keep (now - d * 86400) e = spec_keep now d e := by
  unfold code_keep spec_keep parse_timestamp spec_normalize
  cases e.timestamp with
  | none => rfl
  | some ts =>
    cases ts with
    | dt t o => cases o <;> rfl
    | str t o => cases o <;> rfl
    | strBad => rfl
    | other => rfl

theorem filterOpt_days_only (now : Int) (d : Int) (hd : d ≠ 0) (isMood : Bool)
    (o : Option (List Entry)) :
    filterOpt now (some d) none isMood o
      = Except.ok (o.map (fun h => h.filter (spec_keep now d))) := by
  cases o with
  | none => rfl
  | some h =>
    have h1 : pyTruthyStr none = false := rfl
    have h2 : pyTruthyInt (some d) = true := by simp [pyTruthyInt, hd]
    have h3 : List.filter (code_keep (now - d * 86400)) h
        = List.filter (spec_keep now d) h :=
      List.filter_congr (fun a _ => code_keep_eq_spec_keep now d a)
    simp [filterOpt, filterOne, applyDaysFilter, h1, h2, h3, Except.map]

def c4e : Entry := { timestamp := some (TsValue.str 0 none) }

def c4rec : Record := { ls_default with mood_history := some [c4e] }

/-- C4 counterexample: the claim quantifies over every `windowDays` value,
but `windowDays = 0` is falsy in Python, so `_filter_history` skips the
time filter entirely: at `now = 8640000` an entry with timestamp instant
0 — far older than `now - 0` days — is retained unchanged instead of
being excluded. -/
theorem c4_counterexample :
    filter_history 8640000 c4rec (some 0) none = Except.ok c4rec
  ∧ parse_timestamp c4e.timestamp = some 0
  ∧ ((0 : Int) < 8640000 - 0 * 86400) :=
  ⟨rfl, rfl, by decide⟩

/-- C4 (amended): for every record and every NONZERO `windowDays` value
(zero is falsy and disables the filter), the history filter keeps in
each of the mood/focus/task lists exactly the entries whose timestamp,
normalized to UTC (naive treated as UTC, offset-bearing converted),
is at or after `now - windowDays` days; unparseable timestamps are
silently excluded, never an error; and a naive timestamp and an
offset-bearing timestamp denoting the same instant parse identically. -/
theorem c4_amended_filter_window (now d : Int) (data : Record) (hd : d ≠ 0) :
    filter_history now data (some d) none = Except.ok
      { data with
        mood_history := data.mood_history.map
          (fun h => h.filter (spec_keep now d))
        focus_history := data.focus_history.map
          (fun h => h.filter (spec_keep now d))
        task_history := data.task_history.map
          (fun h => h.filter (spec_keep now d)) }
  ∧ (∀ u o : Int,
      parse_timestamp (some (TsValue.str u none))
        = parse_timestamp (some (TsValue.str (u + o) (some o)))) := by
  constructor
  · have hm := filterOpt_days_only now d hd true data.mood_history
    have hf := filterOpt_days_only now d hd false data.focus_history
    have ht := filterOpt_days_only now d hd false data.task_history
    simp only [filter_history, hm, hf, ht]
  · intro u o
    simp [parse_timestamp]

def c4a : Entry := { timestamp := some (TsValue.str (30 * 86400) none) }

def c4b : Entry :=
  { timestamp := some (TsValue.str (39 * 86400 + 3600) (some 3600)) }

def c4c : Entry := { timestamp := some (TsValue.str 0 none) }

def c4bad : Entry := { timestamp := some TsValue.strBad }

def c4wrec : Record :=
  { ls_default with mood_history := some [c4a, c4b, c4c, c4bad] }

def c4wout : Record :=
  { c4wrec with
    mood_history := some [c4b]
    focus_history := some []
    task_history := some [] }

theorem c4_amended_witness :
    filter_history (40 * 86400) c4wrec (some 7) none = Except.ok c4wout := by
  have h := (c4_amended_filter_window (40 * 86400) 7 c4wrec (by decide)).1
  rw [h]
  rfl

/-- C2: reconciliation is idempotent.  For every world — any availability,
any failure pattern, any local and remote state — running
`sync_user_data` a second time with no intervening writes leaves the
post-state of the first run exactly unchanged: both backends keep the
very same history lists, so no duplicate entries are added and no list
changes length. -/
theorem c2_sync_idempotent (w : World) :
    (sync_user_data (sync_user_data w).2).2 = (sync_user_data w).2 := by
  obtain ⟨ra, rf, lw, rd, lf⟩ := w
  cases ra with
  | false => rfl
  | true =>
    cases rf with
    | true => rfl
    | false =>
      cases rd with
      | none => rfl
      | some fs =>
        cases lw with
        | true =>
          simp only [sync_user_data, load_local_data]
          simp [mergedRecord_self]
        | false =>
          simp only [sync_user_data, load_local_data]
          simp [mergedRecord_absorb]

/-- C8: when `sync_user_data` runs against an existing remote document
(probe available, remote calls succeeding, local file writable), both
backends end up holding the same merged record; and for each tracked
history list that has new local-only identified entries, the merged
list is exactly the remote list followed by those new entries, remote
order preserved and new entries appended at the end. -/
theorem c8_merge_appends (w : World) (fs : Record)
    (hA : w.remoteAvail = true) (hF : w.remoteFails = false)
    (hW : w.localWritable = true) (hD : w.remoteDoc = some fs) :
    (sync_user_data w).2.remoteDoc
        = some (mergedRecord (load_local_data w.localFile) fs)
  ∧ (sync_user_data w).2.localFile
        = some (mergedRecord (load_local_data w.localFile) fs)
  ∧ (newEntries ((load_local_data w.localFile).mood_history.getD [])
        (fs.mood_history.getD []) ≠ [] →
      (mergedRecord (load_local_data w.localFile) fs).mood_history
        = some (fs.mood_history.getD []
            ++ newEntries ((load_local_data w.localFile).mood_history.getD [])
                (fs.mood_history.getD [])))
  ∧ (newEntries ((load_local_data w.localFile).focus_history.getD [])
        (fs.focus_history.getD []) ≠ [] →
      (mergedRecord (load_local_data w.localFile) fs).focus_history
        = some (fs.focus_history.getD []
            ++ newEntries ((load_local_data w.localFile).focus_history.getD [])
                (fs.focus_history.getD [])))
  ∧ (newEntries ((load_local_data w.localFile).task_history.getD [])
        (fs.task_history.getD []) ≠ [] →
      (mergedRecord (load_local_data w.localFile) fs).task_history
        = some (fs.task_history.getD []
            ++ newEntries ((load_local_data w.localFile).task_history.getD [])
                (fs.task_history.getD [])))
  ∧ (newEntries ((load_local_data w.localFile).chat_history.getD [])
        (fs.chat_history.getD []) ≠ [] →
      (mergedRecord (load_local_data w.localFile) fs).chat_history
        = some (fs.chat_history.getD []
            ++ newEntries ((load_local_data w.localFile).chat_history.getD [])
                (fs.chat_history.getD []))) := by
  obtain ⟨ra, rf, lw, rd, lfl⟩ := w
  simp only at hA hF hW hD
  subst hA; subst hF; subst hW; subst hD
  refine ⟨by simp [sync_user_data], by simp [sync_user_data], ?_, ?_, ?_, ?_⟩ <;>
    intro hne <;>
    simp [mergedRecord, mergedField_of_ne_nil hne]

def m1 : Entry := { id := some "m1" }

def m2 : Entry := { id := some "m2" }

def m3 : Entry := { id := some "m3" }

def c8w : World :=
  { remoteAvail := true, remoteFails := false, localWritable := true,
    remoteDoc := some { ls_default with mood_history := some [m1, m2] },
    localFile := some { ls_default with mood_history := some [m1, m2, m3] } }

def c8fs : Record := { ls_default with mood_history := some [m1, m2] }

theorem c8_witness :
    (sync_user_data c8w).2.remoteDoc
        = some (mergedRecord (load_local_data c8w.localFile) c8fs)
  ∧ (sync_user_data c8w).2.localFile
        = some (mergedRecord (load_local_data c8w.localFile) c8fs)
  ∧ (mergedRecord (load_local_data c8w.localFile) c8fs).mood_history
        = some [m1, m2, m3] := by
  have h := c8_merge_appends c8w c8fs rfl rfl rfl rfl
  refine ⟨h.1, h.2.1, ?_⟩
  have hm := h.2.2.1 (by decide)
  rw [hm]
  rfl

end MindSpace
